import Mathlib

/-
  Shallow embedding of src/server/payments/robust-mpesa.ts: the payment
  gateway guard wrapping the external M-Pesa API with retry-with-backoff,
  a circuit breaker, metrics bookkeeping and a sliding-window rate limiter.

  Modelling conventions:
  * Date.now() values are passed in explicitly as Nat timestamps
    (startTime at entry, endTime where the source reads Date.now() after
    the awaited call).
  * Math.random() is passed in as a rational parameter rand, 0 ≤ rand ≤ 1.
  * JavaScript Number arithmetic is modelled with exact rationals.
  * The underlying provider operations (baseGetAccessToken,
    baseInitiateSTKPush from ./mpesa) are passed as an oracle
    op : Nat → Except MErr α giving the outcome of each attempt, and the
    isMpesaConfigured() flag as a Bool parameter.
  * Thrown errors are values: a call returns an Except together with the
    new shared state and the number of provider invocations it made.
-/

namespace RobustMpesa

/-- Error taxonomy of the application (ValidationError and
ExternalServiceError appear in src/server/payments/robust-mpesa.ts; the
configuration kind is the distinct kind named by the taxonomy of the spec;
other covers arbitrary thrown values such as raw HTTP errors). -/
inductive ErrKind where
  | validation
  | configuration
  | externalService
  | other
deriving DecidableEq

/-- An error value: its kind, the service name an ExternalServiceError
carries, an optional HTTP status (read by shouldRetry as error.status),
and its message. -/
structure MErr where
  kind : ErrKind
  service : Option String
  status : Option Nat
  msg : String
deriving DecidableEq

def validationErr (msg : String) : MErr :=
  { kind := ErrKind.validation, service := none, status := none, msg := msg }

def externalServiceErr (service : String) (msg : String) : MErr :=
  { kind := ErrKind.externalService, service := some service, status := none, msg := msg }

def MAX_RETRIES : Nat := 3

def BASE_DELAY : ℚ := 1000

def CIRCUIT_BREAKER_THRESHOLD : Nat := 5

def CIRCUIT_BREAKER_TIMEOUT : Nat := 60000

inductive BreakerMode where
  | CLOSED
  | OPEN
  | HALF_OPEN
deriving DecidableEq

/-- CircuitBreakerState of robust-mpesa.ts (failures, lastFailureTime, state). -/
structure CircuitBreakerState where
  failures : Nat
  lastFailureTime : Nat
  state : BreakerMode
deriving DecidableEq

/-- The module-level circuitBreaker initial value. -/
def circuitBreakerInit : CircuitBreakerState :=
  { failures := 0, lastFailureTime := 0, state := BreakerMode.CLOSED }

/-- RequestMetrics of robust-mpesa.ts. -/
structure RequestMetrics where
  totalRequests : Nat
  successfulRequests : Nat
  failedRequests : Nat
  averageResponseTime : ℚ
  lastRequestTime : Nat
deriving DecidableEq

/-- The module-level metrics initial value. -/
def metricsInit : RequestMetrics :=
  { totalRequests := 0, successfulRequests := 0, failedRequests := 0,
    averageResponseTime := 0, lastRequestTime := 0 }

/-- RetryConfig of robust-mpesa.ts. -/
structure RetryConfig where
  maxRetries : Nat
  baseDelay : ℚ
  maxDelay : ℚ
  backoffMultiplier : ℚ
deriving DecidableEq

def defaultRetryConfig : RetryConfig :=
  { maxRetries := MAX_RETRIES, baseDelay := BASE_DELAY,
    maxDelay := 30000, backoffMultiplier := 2 }

/-- calculateDelay of robust-mpesa.ts; rand models the Math.random() draw. -/
def calculateDelay (attempt : Nat) (config : RetryConfig) (rand : ℚ) : ℚ :=
  let delay := config.baseDelay * config.backoffMultiplier ^ (attempt - 1)
  let jitter := rand * (1 / 10) * delay
  min (delay + jitter) config.maxDelay

/-- shouldRetry of robust-mpesa.ts: no retry once attempt ≥ maxRetries,
no retry on a 4xx HTTP status, retry otherwise. -/
def shouldRetry (e : MErr) (attempt : Nat) (config : RetryConfig) : Bool :=
  if config.maxRetries ≤ attempt then false
  else
    match e.status with
    | some s => if 400 ≤ s ∧ s < 500 then false else true
    | none => true

/-- updateCircuitBreaker of robust-mpesa.ts; now models the Date.now()
read in the failure branch. -/
def updateCircuitBreaker (cb : CircuitBreakerState) (success : Bool) (now : Nat) :
    CircuitBreakerState :=
  if success then
    { cb with failures := 0, state := BreakerMode.CLOSED }
  else
    let failures := cb.failures + 1
    { failures := failures
      lastFailureTime := now
      state := if CIRCUIT_BREAKER_THRESHOLD ≤ failures then BreakerMode.OPEN else cb.state }

/-- isCircuitBreakerOpen of robust-mpesa.ts: a query with a side effect,
returning the boolean answer together with the possibly advanced state. -/
def isCircuitBreakerOpen (cb : CircuitBreakerState) (now : Nat) :
    Bool × CircuitBreakerState :=
  match cb.state with
  | BreakerMode.CLOSED => (false, cb)
  | BreakerMode.OPEN =>
    if CIRCUIT_BREAKER_TIMEOUT ≤ now - cb.lastFailureTime then
      (false, { cb with state := BreakerMode.HALF_OPEN })
    else
      (true, cb)
  | BreakerMode.HALF_OPEN => (false, cb)

/-- updateMetrics of robust-mpesa.ts: the average is updated with the
already incremented totalRequests, via avg * (total - 1) + responseTime
over total. -/
def updateMetrics (m : RequestMetrics) (success : Bool) (responseTime : ℚ) (now : Nat) :
    RequestMetrics :=
  let totalRequests := m.totalRequests + 1
  let totalResponseTime := m.averageResponseTime * ((totalRequests : ℚ) - 1) + responseTime
  { totalRequests := totalRequests
    successfulRequests := if success then m.successfulRequests + 1 else m.successfulRequests
    failedRequests := if success then m.failedRequests else m.failedRequests + 1
    averageResponseTime := totalResponseTime / (totalRequests : ℚ)
    lastRequestTime := now }

/-- Outcome of retryWithBackoff: the returned value or the propagated
error, with the number of attempts performed; errUndefined models the
(dead for maxRetries ≥ 1) throw of the undefined lastError when the loop
body never runs. -/
inductive RetryResult (α : Type) where
  | ok (value : α) (attempts : Nat)
  | err (e : MErr) (attempts : Nat)
  | errUndefined
deriving DecidableEq

/-- The for-loop of retryWithBackoff, with fuel = remaining iterations. -/
def retryLoop {α : Type} (op : Nat → Except MErr α) (config : RetryConfig) :
    Nat → Nat → RetryResult α
  | _, 0 => RetryResult.errUndefined
  | attempt, fuel + 1 =>
    match op attempt with
    | Except.ok v => RetryResult.ok v attempt
    | Except.error e =>
      if shouldRetry e attempt config then
        retryLoop op config (attempt + 1) fuel
      else
        RetryResult.err e attempt

/-- retryWithBackoff of robust-mpesa.ts (with the final merged config). -/
def retryWithBackoff {α : Type} (op : Nat → Except MErr α) (config : RetryConfig) :
    RetryResult α :=
  retryLoop op config 1 config.maxRetries

deriving instance DecidableEq for Except

/-- The process-wide mutable state a guarded call touches. -/
structure GuardState where
  cb : CircuitBreakerState
  metrics : RequestMetrics
deriving DecidableEq

/-- Result of one guarded call: its Except outcome, the state after the
call, and how many times the underlying provider operation ran. -/
structure CallResult (α : Type) where
  result : Except MErr α
  state : GuardState
  providerCalls : Nat
deriving DecidableEq

/-- getAccessToken of robust-mpesa.ts: configuration guard, breaker
check, retry with maxRetries := 2, then metrics and breaker commit. -/
def getAccessToken (configured : Bool) (op : Nat → Except MErr String)
    (st : GuardState) (startTime : Nat) (endTime : Nat) : CallResult String :=
  if !configured then
    { result := Except.error (validationErr ("M-Pesa credentials not configured")),
      state := st, providerCalls := 0 }
  else
    let p := isCircuitBreakerOpen st.cb startTime
    if p.1 then
      { result := Except.error (externalServiceErr ("M-Pesa")
          ("Circuit breaker is open - service temporarily unavailable")),
        state := { cb := p.2, metrics := st.metrics }, providerCalls := 0 }
    else
      let responseTime : ℚ := (endTime : ℚ) - (startTime : ℚ)
      match retryWithBackoff op { defaultRetryConfig with maxRetries := 2 } with
      | RetryResult.ok token attempts =>
        { result := Except.ok token,
          state := { cb := updateCircuitBreaker p.2 true endTime,
                     metrics := updateMetrics st.metrics true responseTime endTime },
          providerCalls := attempts }
      | RetryResult.err e attempts =>
        { result :=
            if e.kind = ErrKind.externalService then Except.error e
            else Except.error (externalServiceErr ("M-Pesa OAuth")
              ("Failed to get access token: " ++ e.msg)),
          state := { cb := updateCircuitBreaker p.2 false endTime,
                     metrics := updateMetrics st.metrics false responseTime endTime },
          providerCalls := attempts }
      | RetryResult.errUndefined =>
        { result := Except.error (externalServiceErr ("M-Pesa OAuth")
            ("Failed to get access token: undefined")),
          state := { cb := updateCircuitBreaker p.2 false endTime,
                     metrics := updateMetrics st.metrics false responseTime endTime },
          providerCalls := 0 }

/-- StkPushRequest (phone, amount, accountReference); amount as an exact
rational. -/
structure StkPushRequest where
  phone : String
  amount : ℚ
  accountReference : String
deriving DecidableEq

/-- initiateSTKPush of robust-mpesa.ts. The field check mirrors the
JavaScript falsiness test !phone || !amount || !accountReference (empty
string or amount = 0), then the amount ≤ 0 check, then the breaker check,
the retried provider call and the metrics/breaker commit. -/
def initiateSTKPush {α : Type} (configured : Bool) (op : Nat → Except MErr α)
    (request : StkPushRequest) (st : GuardState) (startTime : Nat) (endTime : Nat) :
    CallResult α :=
  if !configured then
    { result := Except.error (validationErr ("M-Pesa credentials not configured")),
      state := st, providerCalls := 0 }
  else if request.phone = "" ∨ request.amount = 0 ∨ request.accountReference = "" then
    { result := Except.error (validationErr
        ("Missing required fields: phone, amount, accountReference")),
      state := st, providerCalls := 0 }
  else if request.amount ≤ 0 then
    { result := Except.error (validationErr ("Amount must be greater than 0")),
      state := st, providerCalls := 0 }
  else
    let p := isCircuitBreakerOpen st.cb startTime
    if p.1 then
      { result := Except.error (externalServiceErr ("M-Pesa")
          ("Circuit breaker is open - service temporarily unavailable")),
        state := { cb := p.2, metrics := st.metrics }, providerCalls := 0 }
    else
      let responseTime : ℚ := (endTime : ℚ) - (startTime : ℚ)
      match retryWithBackoff op defaultRetryConfig with
      | RetryResult.ok response attempts =>
        { result := Except.ok response,
          state := { cb := updateCircuitBreaker p.2 true endTime,
                     metrics := updateMetrics st.metrics true responseTime endTime },
          providerCalls := attempts }
      | RetryResult.err e attempts =>
        { result :=
            if e.kind = ErrKind.externalService ∨ e.kind = ErrKind.validation then
              Except.error e
            else Except.error (externalServiceErr ("M-Pesa STK Push")
              ("Failed to initiate payment: " ++ e.msg)),
          state := { cb := updateCircuitBreaker p.2 false endTime,
                     metrics := updateMetrics st.metrics false responseTime endTime },
          providerCalls := attempts }
      | RetryResult.errUndefined =>
        { result := Except.error (externalServiceErr ("M-Pesa STK Push")
            ("Failed to initiate payment: undefined")),
          state := { cb := updateCircuitBreaker p.2 false endTime,
                     metrics := updateMetrics st.metrics false responseTime endTime },
          providerCalls := 0 }

/-- resetMpesaCircuitBreaker of robust-mpesa.ts. -/
def resetMpesaCircuitBreaker : CircuitBreakerState :=
  { failures := 0, lastFailureTime := 0, state := BreakerMode.CLOSED }

def RATE_LIMIT_WINDOW : Nat := 60000

def RATE_LIMIT_MAX_REQUESTS : Nat := 100

/-- The recentRequests filter of checkRateLimit: timestamps with
now - timestamp < RATE_LIMIT_WINDOW. -/
def recentWithin (timestamps : List Nat) (now : Nat) : List Nat :=
  timestamps.filter (fun t => now - t < RATE_LIMIT_WINDOW)

/-- checkRateLimit of robust-mpesa.ts: throws when the recent count is at
or above the maximum; otherwise returns the pruned window with the new
timestamp appended (the source rewrites requestTimestamps to
recentRequests ++ [now]). -/
def checkRateLimit (timestamps : List Nat) (now : Nat) : Except MErr (List Nat) :=
  let recentRequests := recentWithin timestamps now
  if RATE_LIMIT_MAX_REQUESTS ≤ recentRequests.length then
    Except.error (externalServiceErr ("M-Pesa") ("Rate limit exceeded - too many requests"))
  else
    Except.ok (recentRequests ++ [now])

/-- initiateSTKPushWithRateLimit of robust-mpesa.ts: checkRateLimit, then
delegate to initiateSTKPush. On rejection the stored timestamps are left
as they were (the source throws before mutating them). -/
def initiateSTKPushWithRateLimit {α : Type} (configured : Bool)
    (op : Nat → Except MErr α) (request : StkPushRequest) (st : GuardState)
    (timestamps : List Nat) (startTime : Nat) (endTime : Nat) :
    CallResult α × List Nat :=
  match checkRateLimit timestamps startTime with
  | Except.error e =>
    ({ result := Except.error e, state := st, providerCalls := 0 }, timestamps)
  | Except.ok ts2 =>
    (initiateSTKPush configured op request st startTime endTime, ts2)

/-- Record a sequence of consecutive failures (no intervening success) on
the circuit breaker, at the given failure times. -/
def recordFailures (cb : CircuitBreakerState) : List Nat → CircuitBreakerState
  | [] => cb
  | t :: ts => recordFailures (updateCircuitBreaker cb false t) ts

/-- Fold a sequence of guarded-call terminal outcomes
(success flag, response time, completion time) into the metrics. -/
def recordSamples (m : RequestMetrics) : List (Bool × ℚ × Nat) → RequestMetrics
  | [] => m
  | s :: rest => recordSamples (updateMetrics m s.1 s.2.1 s.2.2) rest

/-- Sum of the response-time samples of a sequence of outcomes. -/
def sampleSum (samples : List (Bool × ℚ × Nat)) : ℚ :=
  (samples.map (fun s => s.2.1)).sum

/-- An error carrying an HTTP status in [400, 500). -/
def clientError (e : MErr) : Prop :=
  ∃ s, e.status = some s ∧ 400 ≤ s ∧ s < 500

/-- The ways the shared circuit-breaker cell is touched in
robust-mpesa.ts: the isCircuitBreakerOpen check, the
updateCircuitBreaker commit, and the manual reset. -/
inductive BreakerEvent where
  | check (now : Nat)
  | record (success : Bool) (now : Nat)
  | reset
deriving DecidableEq

def breakerStep (cb : CircuitBreakerState) : BreakerEvent → CircuitBreakerState
  | BreakerEvent.check now => (isCircuitBreakerOpen cb now).2
  | BreakerEvent.record success now => updateCircuitBreaker cb success now
  | BreakerEvent.reset => resetMpesaCircuitBreaker

/-- The breaker state reached from startup by a sequence of events. -/
def breakerRun (events : List BreakerEvent) : CircuitBreakerState :=
  events.foldl breakerStep circuitBreakerInit

/-- Invariant of the breaker cell: away from CLOSED the failure count is
at least the threshold. -/
def BreakerInv (cb : CircuitBreakerState) : Prop :=
  cb.state ≠ BreakerMode.CLOSED → CIRCUIT_BREAKER_THRESHOLD ≤ cb.failures

/-- Fixture: a provider operation that always succeeds. -/
def opOkStr : Nat → Except MErr String := fun _ => Except.ok ("")

/-- Fixture: a server-class (HTTP 500) provider error. -/
def err500 : MErr := { kind := ErrKind.other, service := none, status := some 500, msg := "boom" }

/-- Fixture: a provider operation that always fails with err500. -/
def op500 : Nat → Except MErr String := fun _ => Except.error err500

/-- Fixture: a client-class (HTTP 404) provider error. -/
def err404 : MErr := { kind := ErrKind.other, service := none, status := some 404, msg := "bad" }

/-- Fixture: a provider operation that always fails with err404. -/
def op404 : Nat → Except MErr String := fun _ => Except.error err404

/-- Fixture: a well-formed payment request. -/
def reqOk : StkPushRequest :=
  { phone := "254700000001", amount := 1, accountReference := "ORD1" }

theorem updateCircuitBreaker_true (cb : CircuitBreakerState) (now : Nat) :
    updateCircuitBreaker cb true now =
      { cb with failures := 0, state := BreakerMode.CLOSED } := rfl

theorem updateCircuitBreaker_false (cb : CircuitBreakerState) (now : Nat) :
    updateCircuitBreaker cb false now =
      { failures := cb.failures + 1, lastFailureTime := now,
        state := if CIRCUIT_BREAKER_THRESHOLD ≤ cb.failures + 1 then BreakerMode.OPEN
                 else cb.state } := rfl

theorem isCircuitBreakerOpen_of_closed (cb : CircuitBreakerState) (now : Nat)
    (h : cb.state = BreakerMode.CLOSED) : isCircuitBreakerOpen cb now = (false, cb) := by
  obtain ⟨f, l, s⟩ := cb
  subst h
  rfl

theorem isCircuitBreakerOpen_of_halfopen (cb : CircuitBreakerState) (now : Nat)
    (h : cb.state = BreakerMode.HALF_OPEN) : isCircuitBreakerOpen cb now = (false, cb) := by
  obtain ⟨f, l, s⟩ := cb
  subst h
  rfl

theorem isCircuitBreakerOpen_open_hot (cb : CircuitBreakerState) (now : Nat)
    (hs : cb.state = BreakerMode.OPEN)
    (hc : now - cb.lastFailureTime < CIRCUIT_BREAKER_TIMEOUT) :
    isCircuitBreakerOpen cb now = (true, cb) := by
  obtain ⟨f, l, s⟩ := cb
  subst hs
  simp only [isCircuitBreakerOpen]
  rw [if_neg (Nat.not_le.mpr hc)]

theorem isCircuitBreakerOpen_open_cool (cb : CircuitBreakerState) (now : Nat)
    (hs : cb.state = BreakerMode.OPEN)
    (hc : CIRCUIT_BREAKER_TIMEOUT ≤ now - cb.lastFailureTime) :
    isCircuitBreakerOpen cb now = (false, { cb with state := BreakerMode.HALF_OPEN }) := by
  obtain ⟨f, l, s⟩ := cb
  subst hs
  simp only [isCircuitBreakerOpen]
  rw [if_pos hc]

theorem recordFailures_append (ts : List Nat) (t : Nat) :
    ∀ cb : CircuitBreakerState,
      recordFailures cb (ts ++ [t]) = updateCircuitBreaker (recordFailures cb ts) false t := by
  induction ts with
  | nil => intro cb; rfl
  | cons h tl ih => intro cb; exact ih (updateCircuitBreaker cb false h)

theorem recordFailures_failures (ts : List Nat) :
    ∀ cb : CircuitBreakerState,
      (recordFailures cb ts).failures = cb.failures + ts.length := by
  induction ts with
  | nil => intro cb; rfl
  | cons h tl ih =>
    intro cb
    show (recordFailures (updateCircuitBreaker cb false h) tl).failures = _
    rw [ih]
    have hone : (updateCircuitBreaker cb false h).failures = cb.failures + 1 := rfl
    rw [hone, List.length_cons]
    omega

theorem breakerStep_inv (cb : CircuitBreakerState) (ev : BreakerEvent)
    (h : BreakerInv cb) : BreakerInv (breakerStep cb ev) := by
  obtain ⟨f, l, s⟩ := cb
  cases ev with
  | check now =>
    cases s with
    | CLOSED => exact h
    | OPEN =>
      have hf : CIRCUIT_BREAKER_THRESHOLD ≤ f :=
        h (by show BreakerMode.OPEN ≠ BreakerMode.CLOSED; decide)
      intro _
      by_cases hc : CIRCUIT_BREAKER_TIMEOUT ≤ now - l <;>
        simpa [breakerStep, isCircuitBreakerOpen, hc] using hf
    | HALF_OPEN => exact h
  | record success now =>
    cases success with
    | true => intro hh; exact absurd rfl hh
    | false =>
      intro hh
      show CIRCUIT_BREAKER_THRESHOLD ≤ f + 1
      by_cases ht : CIRCUIT_BREAKER_THRESHOLD ≤ f + 1
      · exact ht
      · have hstate : (breakerStep ⟨f, l, s⟩ (BreakerEvent.record false now)).state = s := by
          simp [breakerStep, updateCircuitBreaker, ht]
        rw [hstate] at hh
        exact le_trans (h hh) (Nat.le_succ f)
  | reset => intro hh; exact absurd rfl hh

theorem breakerRun_inv (events : List BreakerEvent) : BreakerInv (breakerRun events) := by
  have hfold : ∀ cb : CircuitBreakerState, BreakerInv cb →
      BreakerInv (events.foldl breakerStep cb) := by
    induction events with
    | nil => intro cb h; exact h
    | cons e tl ih => intro cb h; exact ih (breakerStep cb e) (breakerStep_inv cb e h)
  exact hfold circuitBreakerInit (fun hh => absurd rfl hh)

/-- Claim C1: after any run of at least 5 consecutive recorded failures
with no intervening success, the breaker state is OPEN with
lastFailureTime the time of the last failure, and any initiateSTKPush or
getAccessToken call made before the 60s cooldown has elapsed returns the
circuit-breaker-open ExternalService error with zero provider
invocations and the shared state unchanged. -/
theorem c1_five_failures_open_fast_fail {α : Type} (cb : CircuitBreakerState)
    (ts : List Nat) (t : Nat) (hlen : 4 ≤ ts.length)
    (now : Nat) (hcool : now - t < CIRCUIT_BREAKER_TIMEOUT)
    (op : Nat → Except MErr α) (opTok : Nat → Except MErr String)
    (request : StkPushRequest) (m : RequestMetrics) (endTime : Nat)
    (hphone : ¬ request.phone = "") (hamt : 0 < request.amount)
    (hacct : ¬ request.accountReference = "")
    (cbF : CircuitBreakerState) (hF : cbF = recordFailures cb (ts ++ [t])) :
    cbF.state = BreakerMode.OPEN ∧
    cbF.lastFailureTime = t ∧
    initiateSTKPush true op request { cb := cbF, metrics := m } now endTime =
      { result := Except.error (externalServiceErr ("M-Pesa")
          ("Circuit breaker is open - service temporarily unavailable")),
        state := { cb := cbF, metrics := m }, providerCalls := 0 } ∧
    getAccessToken true opTok { cb := cbF, metrics := m } now endTime =
      { result := Except.error (externalServiceErr ("M-Pesa")
          ("Circuit breaker is open - service temporarily unavailable")),
        state := { cb := cbF, metrics := m }, providerCalls := 0 } := by
  have hfail : CIRCUIT_BREAKER_THRESHOLD ≤ (recordFailures cb ts).failures + 1 := by
    rw [recordFailures_failures]
    show 5 ≤ cb.failures + ts.length + 1
    omega
  have hcbF : cbF = { failures := (recordFailures cb ts).failures + 1,
                      lastFailureTime := t, state := BreakerMode.OPEN } := by
    rw [hF, recordFailures_append, updateCircuitBreaker_false, if_pos hfail]
  have hstate : cbF.state = BreakerMode.OPEN := by rw [hcbF]
  have hlast : cbF.lastFailureTime = t := by rw [hcbF]
  have hopen : isCircuitBreakerOpen cbF now = (true, cbF) :=
    isCircuitBreakerOpen_open_hot cbF now hstate (by rw [hlast]; exact hcool)
  refine ⟨hstate, hlast, ?_, ?_⟩
  · simp [initiateSTKPush, hopen, hphone, hacct, ne_of_gt hamt, not_le.mpr hamt]
  · simp [getAccessToken, hopen]

/-- Witness for C1: five failures at time 0 open the breaker and a call
at time 0 fast-fails. -/
theorem c1_witness :
    (recordFailures circuitBreakerInit ([0, 0, 0, 0] ++ [0])).state = BreakerMode.OPEN ∧
    initiateSTKPush true opOkStr reqOk
        { cb := recordFailures circuitBreakerInit ([0, 0, 0, 0] ++ [0]),
          metrics := metricsInit } 0 0 =
      { result := Except.error (externalServiceErr ("M-Pesa")
          ("Circuit breaker is open - service temporarily unavailable")),
        state := { cb := recordFailures circuitBreakerInit ([0, 0, 0, 0] ++ [0]),
                   metrics := metricsInit },
        providerCalls := 0 } := by
  have h := c1_five_failures_open_fast_fail (α := String) circuitBreakerInit [0, 0, 0, 0] 0
    (by decide) 0 (by decide) opOkStr opOkStr reqOk metricsInit 0
    (by decide) (by decide) (by decide) _ rfl
  exact ⟨h.1, h.2.2.1⟩

/-- Claim C2: from a reachable Open breaker past the cooldown, the open
check returns false moving the state to HalfOpen; recording a success
then yields Closed with the failure count reset to 0, and recording a
failure yields Open again with lastFailureTime refreshed. -/
theorem c2_open_cooldown_halfopen_probe (events : List BreakerEvent)
    (cb : CircuitBreakerState) (now t u : Nat)
    (hcb : cb = breakerRun events)
    (hopen : cb.state = BreakerMode.OPEN)
    (hcool : CIRCUIT_BREAKER_TIMEOUT ≤ now - cb.lastFailureTime) :
    isCircuitBreakerOpen cb now = (false, { cb with state := BreakerMode.HALF_OPEN }) ∧
    updateCircuitBreaker { cb with state := BreakerMode.HALF_OPEN } true t =
      { failures := 0, lastFailureTime := cb.lastFailureTime,
        state := BreakerMode.CLOSED } ∧
    updateCircuitBreaker { cb with state := BreakerMode.HALF_OPEN } false u =
      { failures := cb.failures + 1, lastFailureTime := u, state := BreakerMode.OPEN } := by
  have hthr : CIRCUIT_BREAKER_THRESHOLD ≤ cb.failures := by
    subst hcb
    exact breakerRun_inv events (by rw [hopen]; intro hh; cases hh)
  refine ⟨isCircuitBreakerOpen_open_cool cb now hopen hcool, rfl, ?_⟩
  rw [updateCircuitBreaker_false, if_pos (le_trans hthr (Nat.le_succ cb.failures))]

/-- Witness for C2: a breaker opened by five failures at time 0 probes at
time 60000. -/
theorem c2_witness :
    isCircuitBreakerOpen (breakerRun (List.replicate 5 (BreakerEvent.record false 0))) 60000 =
      (false, { breakerRun (List.replicate 5 (BreakerEvent.record false 0)) with
                state := BreakerMode.HALF_OPEN }) ∧
    updateCircuitBreaker
        { breakerRun (List.replicate 5 (BreakerEvent.record false 0)) with
          state := BreakerMode.HALF_OPEN } true 70000 =
      { failures := 0,
        lastFailureTime :=
          (breakerRun (List.replicate 5 (BreakerEvent.record false 0))).lastFailureTime,
        state := BreakerMode.CLOSED } ∧
    updateCircuitBreaker
        { breakerRun (List.replicate 5 (BreakerEvent.record false 0)) with
          state := BreakerMode.HALF_OPEN } false 70000 =
      { failures := (breakerRun (List.replicate 5 (BreakerEvent.record false 0))).failures + 1,
        lastFailureTime := 70000, state := BreakerMode.OPEN } :=
  c2_open_cooldown_halfopen_probe (List.replicate 5 (BreakerEvent.record false 0))
    (breakerRun (List.replicate 5 (BreakerEvent.record false 0))) 60000 70000 70000
    rfl (by decide) (by decide)

/-- Claim C10: in any reachable HalfOpen breaker state the open check
returns false and leaves the state untouched for every current time, the
failure count is still at least the threshold, and the Open to HalfOpen
transition preserves both the failure count and the last-failure time. -/
theorem c10_halfopen_check_passthrough (events : List BreakerEvent) (now : Nat)
    (cb : CircuitBreakerState) (hcb : cb = breakerRun events)
    (hhalf : cb.state = BreakerMode.HALF_OPEN) :
    isCircuitBreakerOpen cb now = (false, cb) ∧
    CIRCUIT_BREAKER_THRESHOLD ≤ cb.failures ∧
    (∀ c : CircuitBreakerState, ∀ u : Nat, c.state = BreakerMode.OPEN →
      CIRCUIT_BREAKER_TIMEOUT ≤ u - c.lastFailureTime →
      (isCircuitBreakerOpen c u).2.failures = c.failures ∧
      (isCircuitBreakerOpen c u).2.lastFailureTime = c.lastFailureTime) := by
  refine ⟨isCircuitBreakerOpen_of_halfopen cb now hhalf, ?_, ?_⟩
  · subst hcb
    exact breakerRun_inv events (by rw [hhalf]; intro hh; cases hh)
  · intro c u hs hc
    rw [isCircuitBreakerOpen_open_cool c u hs hc]
    exact ⟨rfl, rfl⟩

/-- Witness for C10: the HalfOpen state reached by five failures at time
0 and a check at time 60000. -/
theorem c10_witness :
    isCircuitBreakerOpen
        (breakerRun (List.replicate 5 (BreakerEvent.record false 0) ++
          [BreakerEvent.check 60000])) 0 =
      (false, breakerRun (List.replicate 5 (BreakerEvent.record false 0) ++
        [BreakerEvent.check 60000])) ∧
    CIRCUIT_BREAKER_THRESHOLD ≤
      (breakerRun (List.replicate 5 (BreakerEvent.record false 0) ++
        [BreakerEvent.check 60000])).failures := by
  have h := c10_halfopen_check_passthrough
    (List.replicate 5 (BreakerEvent.record false 0) ++ [BreakerEvent.check 60000]) 0
    (breakerRun (List.replicate 5 (BreakerEvent.record false 0) ++
      [BreakerEvent.check 60000])) rfl (by decide)
  exact ⟨h.1, h.2.1⟩

/-- Claim C3: a request with non-positive amount yields a Validation
error from initiateSTKPush, with zero provider invocations and the
breaker and metrics left exactly as they were. -/
theorem c3_nonpositive_amount_validation {α : Type} (configured : Bool)
    (op : Nat → Except MErr α) (request : StkPushRequest) (st : GuardState)
    (startTime endTime : Nat) (hamt : request.amount ≤ 0) :
    ∃ msg : String,
      initiateSTKPush configured op request st startTime endTime =
        { result := Except.error (validationErr msg), state := st, providerCalls := 0 } := by
  cases configured with
  | false => exact ⟨"M-Pesa credentials not configured", rfl⟩
  | true =>
    by_cases hmiss : request.phone = "" ∨ request.amount = 0 ∨ request.accountReference = ""
    · refine ⟨"Missing required fields: phone, amount, accountReference", ?_⟩
      simp [initiateSTKPush, hmiss]
    · refine ⟨"Amount must be greater than 0", ?_⟩
      simp [initiateSTKPush, hmiss, hamt]

/-- Witness for C3: amount -1 is rejected with a Validation error and no
state change. -/
theorem c3_witness :
    ∃ msg : String,
      initiateSTKPush true opOkStr
          { phone := "254700000001", amount := -1, accountReference := "ORD1" }
          { cb := circuitBreakerInit, metrics := metricsInit } 0 0 =
        { result := Except.error (validationErr msg),
          state := { cb := circuitBreakerInit, metrics := metricsInit },
          providerCalls := 0 } :=
  c3_nonpositive_amount_validation true opOkStr
    { phone := "254700000001", amount := -1, accountReference := "ORD1" }
    { cb := circuitBreakerInit, metrics := metricsInit } 0 0 (by norm_num)

/-- Counterexample to C4 as stated: with credentials unconfigured,
getAccessToken raises a Validation error, not a Configuration error. -/
theorem c4_counterexample :
    getAccessToken false opOkStr { cb := circuitBreakerInit, metrics := metricsInit } 0 0 =
      { result := Except.error (validationErr ("M-Pesa credentials not configured")),
        state := { cb := circuitBreakerInit, metrics := metricsInit },
        providerCalls := 0 } ∧
    (validationErr ("M-Pesa credentials not configured")).kind ≠ ErrKind.configuration :=
  ⟨rfl, by decide⟩

/-- Claim C4 (amended): when credentials are not configured,
getAccessToken fails immediately with a Validation error (message
"M-Pesa credentials not configured"), with zero provider invocations and
the circuit breaker and metrics untouched. -/
theorem c4_unconfigured_fails_validation (op : Nat → Except MErr String)
    (st : GuardState) (startTime endTime : Nat) :
    getAccessToken false op st startTime endTime =
      { result := Except.error (validationErr ("M-Pesa credentials not configured")),
        state := st, providerCalls := 0 } := rfl

/-- Counterexample to C5 as stated: at attempt 6 under the default
configuration and zero jitter, the computed delay is the 30000 cap,
strictly below the claimed interval lower bound base · mult^(n−1) =
32000. -/
theorem c5_counterexample :
    calculateDelay 6 defaultRetryConfig 0 = 30000 ∧
    calculateDelay 6 defaultRetryConfig 0 <
      defaultRetryConfig.baseDelay * defaultRetryConfig.backoffMultiplier ^ (6 - 1) := by
  constructor <;> norm_num [calculateDelay, defaultRetryConfig, BASE_DELAY, min_def]

/-- Claim C5 (amended): for every attempt, nonnegative baseDelay and
multiplier, and jitter draw rand in [0, 1], the computed delay lies in
the interval [min(D, maxDelay), min(1.1·D, maxDelay)] where
D = baseDelay · multiplier^(attempt − 1), and never exceeds maxDelay. -/
theorem c5_delay_bounds (attempt : Nat) (config : RetryConfig) (rand : ℚ)
    (hr0 : 0 ≤ rand) (hr1 : rand ≤ 1)
    (hb : 0 ≤ config.baseDelay) (hm : 0 ≤ config.backoffMultiplier) :
    min (config.baseDelay * config.backoffMultiplier ^ (attempt - 1)) config.maxDelay ≤
      calculateDelay attempt config rand ∧
    calculateDelay attempt config rand ≤
      min (config.baseDelay * config.backoffMultiplier ^ (attempt - 1) * (11 / 10))
        config.maxDelay ∧
    calculateDelay attempt config rand ≤ config.maxDelay := by
  have hD : 0 ≤ config.baseDelay * config.backoffMultiplier ^ (attempt - 1) :=
    mul_nonneg hb (pow_nonneg hm _)
  have hcd : calculateDelay attempt config rand =
      min (config.baseDelay * config.backoffMultiplier ^ (attempt - 1) +
        rand * (1 / 10) * (config.baseDelay * config.backoffMultiplier ^ (attempt - 1)))
        config.maxDelay := rfl
  have hj0 : 0 ≤ rand * (1 / 10) *
      (config.baseDelay * config.backoffMultiplier ^ (attempt - 1)) := by
    have h110 : (0 : ℚ) ≤ 1 / 10 := by norm_num
    exact mul_nonneg (mul_nonneg hr0 h110) hD
  have hj1 : rand * (1 / 10) *
      (config.baseDelay * config.backoffMultiplier ^ (attempt - 1)) ≤
      (1 / 10) * (config.baseDelay * config.backoffMultiplier ^ (attempt - 1)) := by
    nlinarith
  rw [hcd]
  refine ⟨min_le_min (by linarith) le_rfl, min_le_min (by linarith) le_rfl,
    min_le_right _ _⟩

/-- Witness for C5 (amended): attempt 2 under the default configuration
with rand = 1/2 gives a delay of 2100, inside [2000, 2200] and below the
cap. -/
theorem c5_witness :
    min (defaultRetryConfig.baseDelay * defaultRetryConfig.backoffMultiplier ^ (2 - 1))
        defaultRetryConfig.maxDelay ≤ calculateDelay 2 defaultRetryConfig (1 / 2) ∧
    calculateDelay 2 defaultRetryConfig (1 / 2) ≤
      min (defaultRetryConfig.baseDelay *
        defaultRetryConfig.backoffMultiplier ^ (2 - 1) * (11 / 10))
        defaultRetryConfig.maxDelay ∧
    calculateDelay 2 defaultRetryConfig (1 / 2) ≤ defaultRetryConfig.maxDelay :=
  c5_delay_bounds 2 defaultRetryConfig (1 / 2) (by norm_num) (by norm_num)
    (by norm_num [defaultRetryConfig, BASE_DELAY]) (by norm_num [defaultRetryConfig])

theorem shouldRetry_false_of_client (e : MErr) (attempt : Nat) (config : RetryConfig)
    (h : clientError e) : shouldRetry e attempt config = false := by
  obtain ⟨s, hs, h4, h5⟩ := h
  unfold shouldRetry
  by_cases hmax : config.maxRetries ≤ attempt
  · rw [if_pos hmax]
  · rw [if_neg hmax, hs]
    simp [h4, h5]

theorem shouldRetry_false_of_last (e : MErr) (attempt : Nat) (config : RetryConfig)
    (h : config.maxRetries ≤ attempt) : shouldRetry e attempt config = false := by
  unfold shouldRetry
  rw [if_pos h]

theorem shouldRetry_true_of_not_client (e : MErr) (attempt : Nat) (config : RetryConfig)
    (hlt : attempt < config.maxRetries) (h : ¬ clientError e) :
    shouldRetry e attempt config = true := by
  unfold shouldRetry
  rw [if_neg (Nat.not_le.mpr hlt)]
  cases hstat : e.status with
  | none => rfl
  | some s =>
    have h4 : ¬ (400 ≤ s ∧ s < 500) := fun hc => h ⟨s, hstat, hc.1, hc.2⟩
    show (if 400 ≤ s ∧ s < 500 then false else true) = true
    rw [if_neg h4]

theorem retryLoop_all_fail {α : Type} (op : Nat → Except MErr α) (config : RetryConfig) :
    ∀ fuel attempt : Nat, attempt + fuel = config.maxRetries + 1 → 1 ≤ fuel →
      (∀ i, attempt ≤ i → i < config.maxRetries →
        ∃ e, op i = Except.error e ∧ ¬ clientError e) →
      ∀ e, op config.maxRetries = Except.error e →
        retryLoop op config attempt fuel = RetryResult.err e config.maxRetries := by
  intro fuel
  induction fuel with
  | zero => intro attempt h1 h2; omega
  | succ f ih =>
    intro attempt hsum _ hall e hlaste
    by_cases hlastf : f = 0
    · subst hlastf
      have hat : attempt = config.maxRetries := by omega
      subst hat
      simp [retryLoop, hlaste,
        shouldRetry_false_of_last e config.maxRetries config le_rfl]
    · have hf1 : 1 ≤ f := Nat.one_le_iff_ne_zero.mpr hlastf
      have hlt : attempt < config.maxRetries := by omega
      obtain ⟨e1, he1, hne1⟩ := hall attempt le_rfl hlt
      have hstep : retryLoop op config attempt (f + 1) =
          retryLoop op config (attempt + 1) f := by
        simp [retryLoop, he1,
          shouldRetry_true_of_not_client e1 attempt config hlt hne1]
      rw [hstep]
      exact ih (attempt + 1) (by omega) hf1
        (fun i hi1 hi2 => hall i (by omega) hi2) e hlaste

/-- Claim C6: an error with an HTTP status in [400, 500) raised on the
first attempt is propagated after exactly one attempt regardless of how
many attempts remain, while a run whose intermediate errors are all
non-client is retried through all maxRetries attempts and then
propagates the error of the last attempt. -/
theorem c6_retry_policy {α : Type} (op : Nat → Except MErr α) (config : RetryConfig)
    (hmr : 1 ≤ config.maxRetries) :
    (∀ e : MErr, op 1 = Except.error e → clientError e →
      retryWithBackoff op config = RetryResult.err e 1) ∧
    ((∀ i, 1 ≤ i → i < config.maxRetries →
        ∃ e, op i = Except.error e ∧ ¬ clientError e) →
      ∀ e, op config.maxRetries = Except.error e →
        retryWithBackoff op config = RetryResult.err e config.maxRetries) := by
  constructor
  · intro e he hce
    unfold retryWithBackoff
    obtain ⟨f, hf⟩ : ∃ f, config.maxRetries = f + 1 := ⟨config.maxRetries - 1, by omega⟩
    rw [hf]
    simp [retryLoop, he, shouldRetry_false_of_client e 1 config hce]
  · intro hall e hlaste
    unfold retryWithBackoff
    exact retryLoop_all_fail op config config.maxRetries 1 (by omega) hmr hall e hlaste

/-- Witness for C6: a 404 is propagated after one attempt and a
persistent 500 after all three default attempts. -/
theorem c6_witness :
    retryWithBackoff op404 defaultRetryConfig = RetryResult.err err404 1 ∧
    retryWithBackoff op500 defaultRetryConfig = RetryResult.err err500 3 := by
  constructor
  · exact (c6_retry_policy op404 defaultRetryConfig (by decide)).1 err404 rfl
      ⟨404, rfl, by decide, by decide⟩
  · exact (c6_retry_policy op500 defaultRetryConfig (by decide)).2
      (fun i _ _ => ⟨err500, rfl, by
        rintro ⟨s, hs, h4, h5⟩
        simp [err500] at hs
        omega⟩) err500 rfl

/-- Claim C7: a rate-limited call with a full trailing window is rejected
with the ExternalService rate-limit error, no provider call and no state
change; otherwise stale timestamps are discarded, the current time is
recorded and the call is delegated to initiateSTKPush; a timestamp whose
age reaches the window duration no longer counts. -/
theorem c7_rate_limit_window {α : Type} (configured : Bool) (op : Nat → Except MErr α)
    (request : StkPushRequest) (st : GuardState) (timestamps : List Nat)
    (startTime endTime : Nat) :
    (RATE_LIMIT_MAX_REQUESTS ≤ (recentWithin timestamps startTime).length →
      initiateSTKPushWithRateLimit configured op request st timestamps startTime endTime =
        ({ result := Except.error (externalServiceErr ("M-Pesa")
             ("Rate limit exceeded - too many requests")),
           state := st, providerCalls := 0 }, timestamps)) ∧
    ((recentWithin timestamps startTime).length < RATE_LIMIT_MAX_REQUESTS →
      initiateSTKPushWithRateLimit configured op request st timestamps startTime endTime =
        (initiateSTKPush configured op request st startTime endTime,
         recentWithin timestamps startTime ++ [startTime])) ∧
    (∀ t ∈ timestamps, RATE_LIMIT_WINDOW ≤ startTime - t →
      t ∉ recentWithin timestamps startTime) := by
  refine ⟨?_, ?_, ?_⟩
  · intro hfull
    simp [initiateSTKPushWithRateLimit, checkRateLimit, hfull]
  · intro hfree
    simp [initiateSTKPushWithRateLimit, checkRateLimit, Nat.not_le.mpr hfree]
  · intro t _ hold hmem
    rw [recentWithin, List.mem_filter] at hmem
    have h2 := hmem.2
    simp only [decide_eq_true_eq] at h2
    exact absurd h2 (Nat.not_lt.mpr hold)

/-- Witness for C7: with 100 timestamps already inside the window, the
101st call is rejected without touching state or timestamps. -/
theorem c7_witness :
    initiateSTKPushWithRateLimit true opOkStr reqOk
        { cb := circuitBreakerInit, metrics := metricsInit }
        (List.replicate 100 0) 0 0 =
      ({ result := Except.error (externalServiceErr ("M-Pesa")
           ("Rate limit exceeded - too many requests")),
         state := { cb := circuitBreakerInit, metrics := metricsInit },
         providerCalls := 0 },
       List.replicate 100 0) :=
  (c7_rate_limit_window true opOkStr reqOk
    { cb := circuitBreakerInit, metrics := metricsInit }
    (List.replicate 100 0) 0 0).1 (by decide)

theorem isCircuitBreakerOpen_preserves_failures (cb : CircuitBreakerState) (now : Nat) :
    (isCircuitBreakerOpen cb now).2.failures = cb.failures := by
  obtain ⟨f, l, s⟩ := cb
  cases s with
  | CLOSED => rfl
  | HALF_OPEN => rfl
  | OPEN =>
    by_cases hc : CIRCUIT_BREAKER_TIMEOUT ≤ now - l <;>
      simp [isCircuitBreakerOpen, hc]

theorem updateMetrics_counters (m : RequestMetrics) (success : Bool) (rt : ℚ) (now : Nat) :
    (updateMetrics m success rt now).totalRequests = m.totalRequests + 1 ∧
    (updateMetrics m success rt now).successfulRequests +
      (updateMetrics m success rt now).failedRequests =
      m.successfulRequests + m.failedRequests + 1 ∧
    ((updateMetrics m success rt now).successfulRequests = m.successfulRequests ∨
      (updateMetrics m success rt now).successfulRequests = m.successfulRequests + 1) := by
  cases success with
  | false =>
    refine ⟨rfl, ?_, Or.inl rfl⟩
    show m.successfulRequests + (m.failedRequests + 1) = _
    omega
  | true =>
    refine ⟨rfl, ?_, Or.inr rfl⟩
    show (m.successfulRequests + 1) + m.failedRequests = _
    omega

/-- Counterexample to C8 as stated: a successful guarded operation from a
breaker holding 4 accumulated failures resets the count to 0, a change of
4, so the failure count is not changed by at most 1. -/
theorem c8_counterexample :
    ({ failures := 4, lastFailureTime := 0, state := BreakerMode.CLOSED } :
      CircuitBreakerState).failures = 4 ∧
    (initiateSTKPush true opOkStr reqOk
        { cb := { failures := 4, lastFailureTime := 0, state := BreakerMode.CLOSED },
          metrics := metricsInit } 0 0).state.cb.failures = 0 ∧
    ¬ (({ failures := 4, lastFailureTime := 0, state := BreakerMode.CLOSED } :
          CircuitBreakerState).failures ≤
        (initiateSTKPush true opOkStr reqOk
          { cb := { failures := 4, lastFailureTime := 0, state := BreakerMode.CLOSED },
            metrics := metricsInit } 0 0).state.cb.failures + 1) := by
  refine ⟨rfl, rfl, ?_⟩
  intro h
  have h4 : (4 : Nat) ≤ 0 + 1 := h
  omega

theorem initiateSTKPush_commit {α : Type} (op : Nat → Except MErr α)
    (request : StkPushRequest) (st : GuardState) (startTime endTime : Nat)
    (hphone : ¬ request.phone = "") (hamt : 0 < request.amount)
    (hacct : ¬ request.accountReference = "")
    (hopen : (isCircuitBreakerOpen st.cb startTime).1 = false)
    (r : CallResult α) (hr : r = initiateSTKPush true op request st startTime endTime) :
    r.state.metrics.totalRequests = st.metrics.totalRequests + 1 ∧
    (∀ v : α, r.result = Except.ok v →
      r.state.metrics.successfulRequests = st.metrics.successfulRequests + 1 ∧
      r.state.metrics.failedRequests = st.metrics.failedRequests ∧
      r.state.cb.failures = 0) ∧
    (∀ e0 : MErr, r.result = Except.error e0 →
      r.state.metrics.successfulRequests = st.metrics.successfulRequests ∧
      r.state.metrics.failedRequests = st.metrics.failedRequests + 1 ∧
      r.state.cb.failures = st.cb.failures + 1) := by
  have hps := isCircuitBreakerOpen_preserves_failures st.cb startTime
  rcases hp : isCircuitBreakerOpen st.cb startTime with ⟨b, cb1⟩
  rw [hp] at hopen hps
  simp only at hopen hps
  subst hopen
  subst hr
  cases hres : retryWithBackoff op defaultRetryConfig with
  | ok v a =>
    have heval : initiateSTKPush true op request st startTime endTime =
        { result := Except.ok v,
          state := { cb := updateCircuitBreaker cb1 true endTime,
                     metrics := updateMetrics st.metrics true
                       ((endTime : ℚ) - (startTime : ℚ)) endTime },
          providerCalls := a } := by
      simp [initiateSTKPush, hphone, hacct, ne_of_gt hamt, not_le.mpr hamt, hp, hres]
    rw [heval]
    refine ⟨rfl, ?_, ?_⟩
    · intro v0 _
      exact ⟨rfl, rfl, rfl⟩
    · intro e0 he
      exact Except.noConfusion he
  | err e a =>
    have heval : initiateSTKPush true op request st startTime endTime =
        { result :=
            if e.kind = ErrKind.externalService ∨ e.kind = ErrKind.validation then
              Except.error e
            else Except.error (externalServiceErr ("M-Pesa STK Push")
              ("Failed to initiate payment: " ++ e.msg)),
          state := { cb := updateCircuitBreaker cb1 false endTime,
                     metrics := updateMetrics st.metrics false
                       ((endTime : ℚ) - (startTime : ℚ)) endTime },
          providerCalls := a } := by
      simp [initiateSTKPush, hphone, hacct, ne_of_gt hamt, not_le.mpr hamt, hp, hres]
    rw [heval]
    refine ⟨rfl, ?_, ?_⟩
    · intro v0 hv
      have hv2 : Except.error (α := α)
          (if e.kind = ErrKind.externalService ∨ e.kind = ErrKind.validation then e
           else externalServiceErr ("M-Pesa STK Push")
             ("Failed to initiate payment: " ++ e.msg)) = Except.ok v0 := by
        rw [apply_ite (Except.error (α := α))]
        exact hv
      exact Except.noConfusion hv2
    · intro e0 _
      refine ⟨rfl, rfl, ?_⟩
      show cb1.failures + 1 = st.cb.failures + 1
      omega
  | errUndefined =>
    have heval : initiateSTKPush true op request st startTime endTime =
        { result := Except.error (externalServiceErr ("M-Pesa STK Push")
            ("Failed to initiate payment: undefined")),
          state := { cb := updateCircuitBreaker cb1 false endTime,
                     metrics := updateMetrics st.metrics false
                       ((endTime : ℚ) - (startTime : ℚ)) endTime },
          providerCalls := 0 } := by
      simp [initiateSTKPush, hphone, hacct, ne_of_gt hamt, not_le.mpr hamt, hp, hres]
    rw [heval]
    refine ⟨rfl, ?_, ?_⟩
    · intro v0 hv
      exact Except.noConfusion hv
    · intro e0 _
      refine ⟨rfl, rfl, ?_⟩
      show cb1.failures + 1 = st.cb.failures + 1
      omega

theorem getAccessToken_commit (op : Nat → Except MErr String)
    (st : GuardState) (startTime endTime : Nat)
    (hopen : (isCircuitBreakerOpen st.cb startTime).1 = false)
    (r : CallResult String) (hr : r = getAccessToken true op st startTime endTime) :
    r.state.metrics.totalRequests = st.metrics.totalRequests + 1 ∧
    (∀ v : String, r.result = Except.ok v →
      r.state.metrics.successfulRequests = st.metrics.successfulRequests + 1 ∧
      r.state.metrics.failedRequests = st.metrics.failedRequests ∧
      r.state.cb.failures = 0) ∧
    (∀ e0 : MErr, r.result = Except.error e0 →
      r.state.metrics.successfulRequests = st.metrics.successfulRequests ∧
      r.state.metrics.failedRequests = st.metrics.failedRequests + 1 ∧
      r.state.cb.failures = st.cb.failures + 1) := by
  have hps := isCircuitBreakerOpen_preserves_failures st.cb startTime
  rcases hp : isCircuitBreakerOpen st.cb startTime with ⟨b, cb1⟩
  rw [hp] at hopen hps
  simp only at hopen hps
  subst hopen
  subst hr
  cases hres : retryWithBackoff op { defaultRetryConfig with maxRetries := 2 } with
  | ok v a =>
    have heval : getAccessToken true op st startTime endTime =
        { result := Except.ok v,
          state := { cb := updateCircuitBreaker cb1 true endTime,
                     metrics := updateMetrics st.metrics true
                       ((endTime : ℚ) - (startTime : ℚ)) endTime },
          providerCalls := a } := by
      simp [getAccessToken, hp, hres]
    rw [heval]
    refine ⟨rfl, ?_, ?_⟩
    · intro v0 _
      exact ⟨rfl, rfl, rfl⟩
    · intro e0 he
      exact Except.noConfusion he
  | err e a =>
    have heval : getAccessToken true op st startTime endTime =
        { result :=
            if e.kind = ErrKind.externalService then Except.error e
            else Except.error (externalServiceErr ("M-Pesa OAuth")
              ("Failed to get access token: " ++ e.msg)),
          state := { cb := updateCircuitBreaker cb1 false endTime,
                     metrics := updateMetrics st.metrics false
                       ((endTime : ℚ) - (startTime : ℚ)) endTime },
          providerCalls := a } := by
      simp [getAccessToken, hp, hres]
    rw [heval]
    refine ⟨rfl, ?_, ?_⟩
    · intro v0 hv
      have hv2 : Except.error (α := String)
          (if e.kind = ErrKind.externalService then e
           else externalServiceErr ("M-Pesa OAuth")
             ("Failed to get access token: " ++ e.msg)) = Except.ok v0 := by
        rw [apply_ite (Except.error (α := String))]
        exact hv
      exact Except.noConfusion hv2
    · intro e0 _
      refine ⟨rfl, rfl, ?_⟩
      show cb1.failures + 1 = st.cb.failures + 1
      omega
  | errUndefined =>
    have heval : getAccessToken true op st startTime endTime =
        { result := Except.error (externalServiceErr ("M-Pesa OAuth")
            ("Failed to get access token: undefined")),
          state := { cb := updateCircuitBreaker cb1 false endTime,
                     metrics := updateMetrics st.metrics false
                       ((endTime : ℚ) - (startTime : ℚ)) endTime },
          providerCalls := 0 } := by
      simp [getAccessToken, hp, hres]
    rw [heval]
    refine ⟨rfl, ?_, ?_⟩
    · intro v0 hv
      exact Except.noConfusion hv
    · intro e0 _
      refine ⟨rfl, rfl, ?_⟩
      show cb1.failures + 1 = st.cb.failures + 1
      omega

/-- Claim C8 (amended): each complete guarded operation (initiateSTKPush
or getAccessToken past validation and breaker checks) increments
totalRequests by exactly 1 and, according to its terminal outcome,
exactly one of successfulRequests (terminal success) or failedRequests
(terminal failure) by exactly 1, no matter how many internal retry
attempts it made, and increases the breaker failure count by at most 1:
a terminal failure adds exactly 1 and a terminal success resets it
to 0. -/
theorem c8_terminal_outcome_commit {α : Type} (op : Nat → Except MErr α)
    (opTok : Nat → Except MErr String)
    (request : StkPushRequest) (st : GuardState) (startTime endTime : Nat)
    (hphone : ¬ request.phone = "") (hamt : 0 < request.amount)
    (hacct : ¬ request.accountReference = "")
    (hopen : (isCircuitBreakerOpen st.cb startTime).1 = false)
    (r : CallResult α) (hr : r = initiateSTKPush true op request st startTime endTime)
    (r2 : CallResult String) (hr2 : r2 = getAccessToken true opTok st startTime endTime) :
    (r.state.metrics.totalRequests = st.metrics.totalRequests + 1 ∧
     (∀ v : α, r.result = Except.ok v →
       r.state.metrics.successfulRequests = st.metrics.successfulRequests + 1 ∧
       r.state.metrics.failedRequests = st.metrics.failedRequests ∧
       r.state.cb.failures = 0) ∧
     (∀ e0 : MErr, r.result = Except.error e0 →
       r.state.metrics.successfulRequests = st.metrics.successfulRequests ∧
       r.state.metrics.failedRequests = st.metrics.failedRequests + 1 ∧
       r.state.cb.failures = st.cb.failures + 1)) ∧
    (r2.state.metrics.totalRequests = st.metrics.totalRequests + 1 ∧
     (∀ v : String, r2.result = Except.ok v →
       r2.state.metrics.successfulRequests = st.metrics.successfulRequests + 1 ∧
       r2.state.metrics.failedRequests = st.metrics.failedRequests ∧
       r2.state.cb.failures = 0) ∧
     (∀ e0 : MErr, r2.result = Except.error e0 →
       r2.state.metrics.successfulRequests = st.metrics.successfulRequests ∧
       r2.state.metrics.failedRequests = st.metrics.failedRequests + 1 ∧
       r2.state.cb.failures = st.cb.failures + 1)) :=
  ⟨initiateSTKPush_commit op request st startTime endTime hphone hamt hacct hopen r hr,
   getAccessToken_commit opTok st startTime endTime hopen r2 hr2⟩

/-- Witness for C8 (amended): from the initial state, a terminally
successful guarded call records one success and resets the failure
count, and a terminally failing one (persistent 500 through all retries)
records one failure and adds exactly one breaker failure. -/
theorem c8_witness :
    (initiateSTKPush true opOkStr reqOk
        { cb := circuitBreakerInit, metrics := metricsInit } 0 0).state.metrics.totalRequests =
      ({ cb := circuitBreakerInit, metrics := metricsInit } :
        GuardState).metrics.totalRequests + 1 ∧
    (initiateSTKPush true opOkStr reqOk
        { cb := circuitBreakerInit, metrics := metricsInit } 0 0).state.metrics.successfulRequests =
      ({ cb := circuitBreakerInit, metrics := metricsInit } :
        GuardState).metrics.successfulRequests + 1 ∧
    (initiateSTKPush true opOkStr reqOk
        { cb := circuitBreakerInit, metrics := metricsInit } 0 0).state.cb.failures = 0 ∧
    (initiateSTKPush true op500 reqOk
        { cb := circuitBreakerInit, metrics := metricsInit } 0 0).state.metrics.failedRequests =
      ({ cb := circuitBreakerInit, metrics := metricsInit } :
        GuardState).metrics.failedRequests + 1 ∧
    (initiateSTKPush true op500 reqOk
        { cb := circuitBreakerInit, metrics := metricsInit } 0 0).state.cb.failures =
      ({ cb := circuitBreakerInit, metrics := metricsInit } :
        GuardState).cb.failures + 1 ∧
    (getAccessToken true opOkStr
        { cb := circuitBreakerInit, metrics := metricsInit } 0 0).state.metrics.successfulRequests =
      ({ cb := circuitBreakerInit, metrics := metricsInit } :
        GuardState).metrics.successfulRequests + 1 := by
  have hok := c8_terminal_outcome_commit opOkStr opOkStr reqOk
    { cb := circuitBreakerInit, metrics := metricsInit } 0 0
    (by decide) (by norm_num [reqOk]) (by decide) (by decide)
    (initiateSTKPush true opOkStr reqOk
      { cb := circuitBreakerInit, metrics := metricsInit } 0 0) rfl
    (getAccessToken true opOkStr
      { cb := circuitBreakerInit, metrics := metricsInit } 0 0) rfl
  have herr := c8_terminal_outcome_commit op500 op500 reqOk
    { cb := circuitBreakerInit, metrics := metricsInit } 0 0
    (by decide) (by norm_num [reqOk]) (by decide) (by decide)
    (initiateSTKPush true op500 reqOk
      { cb := circuitBreakerInit, metrics := metricsInit } 0 0) rfl
    (getAccessToken true op500
      { cb := circuitBreakerInit, metrics := metricsInit } 0 0) rfl
  refine ⟨hok.1.1, (hok.1.2.1 ("") rfl).1, (hok.1.2.1 ("") rfl).2.2, ?_, ?_,
    (hok.2.2.1 ("") rfl).1⟩
  · exact (herr.1.2.2 (externalServiceErr ("M-Pesa STK Push")
      ("Failed to initiate payment: boom")) rfl).2.1
  · exact (herr.1.2.2 (externalServiceErr ("M-Pesa STK Push")
      ("Failed to initiate payment: boom")) rfl).2.2

theorem sampleSum_cons (s : Bool × ℚ × Nat) (rest : List (Bool × ℚ × Nat)) :
    sampleSum (s :: rest) = s.2.1 + sampleSum rest := by
  simp [sampleSum]

theorem updateMetrics_avg_mul (m : RequestMetrics) (success : Bool) (rt : ℚ) (now : Nat) :
    (updateMetrics m success rt now).averageResponseTime *
      ((m.totalRequests + 1 : Nat) : ℚ) =
      m.averageResponseTime * (m.totalRequests : ℚ) + rt := by
  have hne : ((m.totalRequests + 1 : Nat) : ℚ) ≠ 0 := by
    exact_mod_cast Nat.succ_ne_zero m.totalRequests
  show ((m.averageResponseTime * (((m.totalRequests + 1 : Nat) : ℚ) - 1) + rt) /
      ((m.totalRequests + 1 : Nat) : ℚ)) * ((m.totalRequests + 1 : Nat) : ℚ) = _
  rw [div_mul_cancel₀ _ hne]
  push_cast
  ring

theorem recordSamples_total_and_sum (samples : List (Bool × ℚ × Nat)) :
    ∀ m : RequestMetrics,
      (recordSamples m samples).totalRequests = m.totalRequests + samples.length ∧
      (recordSamples m samples).averageResponseTime *
        ((m.totalRequests + samples.length : Nat) : ℚ) =
        m.averageResponseTime * (m.totalRequests : ℚ) + sampleSum samples := by
  induction samples with
  | nil =>
    intro m
    refine ⟨rfl, ?_⟩
    simp [recordSamples, sampleSum]
  | cons s rest ih =>
    intro m
    obtain ⟨h1, h2⟩ := ih (updateMetrics m s.1 s.2.1 s.2.2)
    have htot : (updateMetrics m s.1 s.2.1 s.2.2).totalRequests = m.totalRequests + 1 := rfl
    constructor
    · show (recordSamples (updateMetrics m s.1 s.2.1 s.2.2) rest).totalRequests = _
      rw [h1, htot, List.length_cons]
      omega
    · show (recordSamples (updateMetrics m s.1 s.2.1 s.2.2) rest).averageResponseTime *
        ((m.totalRequests + (s :: rest).length : Nat) : ℚ) = _
      have hcast : ((m.totalRequests + (s :: rest).length : Nat) : ℚ) =
          (((updateMetrics m s.1 s.2.1 s.2.2).totalRequests + rest.length : Nat) : ℚ) := by
        rw [htot, List.length_cons]
        push_cast
        ring
      rw [hcast, h2, htot, updateMetrics_avg_mul m s.1 s.2.1 s.2.2, sampleSum_cons]
      ring

/-- Claim C9: starting from the initial metrics, after recording k ≥ 1
terminal outcomes the averageResponseTime equals the arithmetic mean of
the k recorded response times, in exact arithmetic. -/
theorem c9_average_is_mean (samples : List (Bool × ℚ × Nat)) (hk : 1 ≤ samples.length) :
    (recordSamples metricsInit samples).averageResponseTime =
      sampleSum samples / (samples.length : ℚ) := by
  obtain ⟨h1, h2⟩ := recordSamples_total_and_sum samples metricsInit
  have hlen : ((samples.length : Nat) : ℚ) ≠ 0 := by
    have : 0 < samples.length := hk
    exact_mod_cast Nat.pos_iff_ne_zero.mp this
  rw [eq_div_iff hlen]
  have hzero : (metricsInit.totalRequests + samples.length : Nat) = samples.length := by
    simp [metricsInit]
  rw [hzero] at h2
  have havg : metricsInit.averageResponseTime * ((metricsInit.totalRequests : Nat) : ℚ) = 0 := by
    simp [metricsInit]
  rw [h2, havg]
  ring

/-- Witness for C9: two samples of 10 and 20 give an average of exactly
their mean. -/
theorem c9_witness :
    (recordSamples metricsInit
        [(true, (10 : ℚ), (0 : Nat)), (false, (20 : ℚ), (0 : Nat))]).averageResponseTime =
      sampleSum [(true, (10 : ℚ), (0 : Nat)), (false, (20 : ℚ), (0 : Nat))] /
        (([(true, (10 : ℚ), (0 : Nat)), (false, (20 : ℚ), (0 : Nat))] :
          List (Bool × ℚ × Nat)).length : ℚ) :=
  c9_average_is_mean [(true, (10 : ℚ), (0 : Nat)), (false, (20 : ℚ), (0 : Nat))] (by decide)

end RobustMpesa
